import Mathlib

/-!
Shallow embedding of `src/js/theme.js` (the ThemeManager module of the
`movie` repository).

The program manages a light/dark page theme: it reads a stored preference
from `localStorage` under the key `theme-preference`, falls back to the
system `prefers-color-scheme` media query, applies the theme to the
document root as a `data-theme` attribute, persists user choices, keeps
toggle-button UI (icon, text, title, aria-label) in sync, and follows
system theme changes while no preference is stored.

The embedding models the observable browser state explicitly:
  * `storage`   — the value under `localStorage['theme-preference']`
                  (`none` = key absent);
  * `storageOk` — whether `localStorage.setItem` succeeds (a `false` value
                  models the write throwing, e.g. quota exceeded);
  * `readOk`    — whether `localStorage.getItem` succeeds;
  * `matchMediaAvail`, `systemLight`
                — whether `window.matchMedia` exists and whether the
                  `(prefers-color-scheme: light)` query matches;
  * `attr`      — the `data-theme` attribute on `document.documentElement`
                  (`none` = attribute removed);
  * `currentTheme` — the in-memory `this.currentTheme` field;
  * `icons`, `texts`, `titles`, `ariaLabels`
                — the contents of the `#themeIcon` / `#themeText` /
                  `#themeToggleButton` nodes currently in the document;
  * `toastAvail`, `toasts`
                — whether the global `showToast` function exists, and the
                  list of (message, severity) notifications emitted so far.

JavaScript strings are modelled as Lean `String`; the JS `||` fallback
used on the stored value keeps its truthiness semantics (`null` and the
empty string are falsy, every other string is truthy).
-/

/-- The browser/page state observed and mutated by `theme.js`. -/
structure St where
  storage : Option String
  storageOk : Bool
  readOk : Bool
  matchMediaAvail : Bool
  systemLight : Bool
  attr : Option String
  currentTheme : String
  icons : List String
  texts : List String
  titles : List String
  ariaLabels : List String
  toastAvail : Bool
  toasts : List (String × String)
deriving DecidableEq, Repr

/-- JS truthiness of an optional string: `null` and `""` are falsy,
every other string is truthy. -/
def truthy : Option String → Bool
  | none => false
  | some s => s ≠ ""

/-- The JS expression `a || b` where `a` is a nullable string: returns `a`
when truthy, otherwise `b`. -/
def jsOr (a : Option String) (b : String) : String :=
  match a with
  | none => b
  | some s => if s = "" then b else s

/-- `getStoredTheme` (theme.js lines 11–17 and 63–70):
`try { return localStorage.getItem(STORAGE_KEY); } catch (e) { return null; }`. -/
def getStoredTheme (s : St) : Option String :=
  if s.readOk then s.storage else none

/-- `getSystemTheme` (theme.js lines 19–24 and 75–80): `'light'` when
`window.matchMedia` exists and `(prefers-color-scheme: light)` matches,
otherwise `'dark'`. -/
def getSystemTheme (s : St) : String :=
  if s.matchMediaAvail && s.systemLight then "light" else "dark"

/-- The initial theme expression used both by the pre-render IIFE
(theme.js line 27) and by the `ThemeManager` constructor (line 37):
`getStoredTheme() || getSystemTheme()`. -/
def resolveInitialTheme (s : St) : String :=
  jsOr (getStoredTheme s) (getSystemTheme s)

/-- The raw `localStorage.setItem(STORAGE_KEY, theme)` platform call:
throws (modelled as `Except.error`) when storage is unavailable. -/
def setItemE (theme : String) (s : St) : Except String St :=
  if s.storageOk then .ok { s with storage := some theme }
  else .error "storage write failed"

/-- `saveTheme` (theme.js lines 85–91): best-effort write wrapped in
`try/catch`; a throwing write is swallowed (logged with `console.warn`)
and the state is left unchanged. -/
def saveTheme (theme : String) (s : St) : St :=
  match setItemE theme s with
  | .ok s2 => s2
  | .error _ => s

/-- `applyTheme` (theme.js lines 96–107): set the `data-theme` attribute
to `'light'` when the theme is `'light'`, otherwise remove it; record the
theme in memory; persist via `saveTheme`. -/
def applyTheme (theme : String) (s : St) : St :=
  let s1 := if theme = "light" then { s with attr := some "light" }
            else { s with attr := none }
  let s2 := { s1 with currentTheme := theme }
  saveTheme theme s2

/-- The moon-icon path markup written into `#themeIcon` when the current
theme is light (theme.js lines 177–180). -/
def moonIconHTML : String :=
  "<path stroke-linecap=\"round\" stroke-linejoin=\"round\" stroke-width=\"2\" d=\"M20.354 15.354A9 9 0 018.646 3.646 9.003 9.003 0 0012 21a9.003 9.003 0 008.354-5.646z\"></path>"

/-- The sun-icon path markup written into `#themeIcon` when the current
theme is dark (theme.js lines 183–186). -/
def sunIconHTML : String :=
  "<path stroke-linecap=\"round\" stroke-linejoin=\"round\" stroke-width=\"2\" d=\"M12 3v1m0 16v1m9-9h-1M4 12H3m15.364 6.364l-.707-.707M6.343 6.343l-.707-.707m12.728 0l-.707.707M6.343 17.657l-.707.707M16 12a4 4 0 11-8 0 4 4 0 018 0z\"></path>"

/-- Icon markup chosen by `updateThemeButton` for a given current theme. -/
def iconFor (theme : String) : String :=
  if theme = "light" then moonIconHTML else sunIconHTML

/-- `#themeText` content chosen by `updateThemeButton`: `'夜间'` when the
current theme is light, `'日间'` otherwise (theme.js line 194). -/
def textFor (theme : String) : String :=
  if theme = "light" then "夜间" else "日间"

/-- Button `title` / `aria-label` chosen by `updateThemeButton`
(theme.js lines 202–203). -/
def titleFor (theme : String) : String :=
  "切换到" ++ (if theme = "light" then "夜间" else "日间") ++ "模式"

/-- `updateThemeButton` (theme.js lines 166–206): rewrite every
`#themeIcon`, `#themeText` and `#themeToggleButton` node in the document
to reflect the current theme. -/
def updateThemeButton (s : St) : St :=
  { s with
    icons := s.icons.map (fun _ => iconFor s.currentTheme)
    texts := s.texts.map (fun _ => textFor s.currentTheme)
    titles := s.titles.map (fun _ => titleFor s.currentTheme)
    ariaLabels := s.ariaLabels.map (fun _ => titleFor s.currentTheme) }

/-- The toast message emitted by `toggleTheme` (theme.js line 119). -/
def toastMsg (newTheme : String) : String :=
  "已切换到" ++ (if newTheme = "light" then "日间" else "夜间") ++ "模式"

/-- `toggleTheme` (theme.js lines 112–121): flip the current theme, apply
it, refresh the button UI, and — when the global `showToast` exists —
emit one notification naming the new mode. -/
def toggleTheme (s : St) : St :=
  let newTheme := if s.currentTheme = "light" then "dark" else "light"
  let s1 := updateThemeButton (applyTheme newTheme s)
  if s1.toastAvail then { s1 with toasts := s1.toasts ++ [(toastMsg newTheme, "success")] }
  else s1

/-- The body of the `handleChange` listener registered by
`watchSystemTheme` (theme.js lines 131–138), fired with the event's
`matches` flag: only when no stored value is truthy, apply the new system
theme and refresh the button UI. -/
def handleChange (eMatches : Bool) (s : St) : St :=
  if truthy (getStoredTheme s) then s
  else
    let systemTheme := if eMatches then "light" else "dark"
    updateThemeButton (applyTheme systemTheme s)

/-- `setTheme` (theme.js lines 218–223): validate the input is `'light'`
or `'dark'`; if so apply it and refresh the UI, otherwise do nothing. -/
def setTheme (theme : String) (s : St) : St :=
  if theme = "light" ∨ theme = "dark" then
    updateThemeButton (applyTheme theme s)
  else s

/-- `getCurrentTheme` (theme.js lines 211–213). -/
def getCurrentTheme (s : St) : String :=
  s.currentTheme

/-- `init` (theme.js lines 46–58): apply the current theme, register the
system-theme listener and the click delegation (no immediate state
change), then refresh the button UI. -/
def init (s : St) : St :=
  updateThemeButton (applyTheme s.currentTheme s)

/-- The `ThemeManager` constructor (theme.js lines 34–41): resolve the
initial theme from storage-or-system and run `init`. -/
def themeManagerConstructor (s : St) : St :=
  init { s with currentTheme := resolveInitialTheme s }

/-- The document reflects the effective theme: the `data-theme` attribute
is present with value `'light'` exactly when the current theme is
`'light'`, and absent exactly when it is `'dark'`. -/
def docReflects (s : St) : Prop :=
  (s.attr = some "light" ↔ s.currentTheme = "light") ∧
  (s.attr = none ↔ s.currentTheme = "dark")

instance : DecidablePred docReflects := fun s => by
  unfold docReflects; infer_instance

/-- The toggle-button UI nodes all show the icon, text and labels that
`updateThemeButton` would write for the current theme. Holds for every
state the manager leaves at rest: `init`, `toggleTheme`, `setTheme` (on
valid input) and the system-change handler all end in
`updateThemeButton`. -/
def uiSynced (s : St) : Prop :=
  s.icons = s.icons.map (fun _ => iconFor s.currentTheme) ∧
  s.texts = s.texts.map (fun _ => textFor s.currentTheme) ∧
  s.titles = s.titles.map (fun _ => titleFor s.currentTheme) ∧
  s.ariaLabels = s.ariaLabels.map (fun _ => titleFor s.currentTheme)

instance : DecidablePred uiSynced := fun s => by
  unfold uiSynced; infer_instance

/-! ### Concrete states used for witnesses and counterexamples -/

/-- A concrete page state: nothing stored, storage healthy, `matchMedia`
present and reporting dark, document in dark mode with one synced toggle
button, `showToast` available. -/
def darkBase : St :=
  { storage := none, storageOk := true, readOk := true,
    matchMediaAvail := true, systemLight := false,
    attr := none, currentTheme := "dark",
    icons := [sunIconHTML], texts := ["日间"], titles := [titleFor "dark"],
    ariaLabels := [titleFor "dark"], toastAvail := true, toasts := [] }

/-- `darkBase` with the corrupt value `"purple"` stored and a system that
reports light. -/
def stPurple : St :=
  { darkBase with storage := some "purple", systemLight := true }

/-- `darkBase` with a broken storage layer (writes throw). -/
def stNoWrite : St :=
  { darkBase with storageOk := false }

/-! ### Helper lemmas -/

/-- `applyTheme` unfolded to a single record update: sets the attribute
from the theme, records the theme, and writes storage exactly when the
storage layer is healthy. -/
theorem applyTheme_eq (t : String) (s : St) :
    applyTheme t s =
      { s with attr := if t = "light" then some "light" else none,
               currentTheme := t,
               storage := if s.storageOk then some t else s.storage } := by
  unfold applyTheme saveTheme setItemE
  by_cases h : t = "light" <;> by_cases h2 : s.storageOk = true <;>
    simp [h, h2]

/-! ### Claim C5 -/

/-- Claim C5: for every theme `t` in `{light, dark}` (and a healthy
storage layer), after `applyTheme t` the current theme is `t`, the
persisted value equals `t`, and the `data-theme` attribute is present
with value `light` when `t = light` and removed when `t = dark`. -/
theorem c5_applyTheme_spec (s : St) (t : String) (hw : s.storageOk = true)
    (ht : t = "light" ∨ t = "dark") :
    getCurrentTheme (applyTheme t s) = t ∧
    (applyTheme t s).storage = some t ∧
    (t = "light" → (applyTheme t s).attr = some "light") ∧
    (t = "dark" → (applyTheme t s).attr = none) := by
  rcases ht with h | h <;> subst h <;>
    simp [applyTheme_eq, getCurrentTheme, hw]

/-- Witness for C5: `applyTheme "light"` on a concrete dark page. -/
theorem c5_applyTheme_spec_witness :
    getCurrentTheme (applyTheme "light" darkBase) = "light" ∧
    (applyTheme "light" darkBase).storage = some "light" ∧
    (applyTheme "light" darkBase).attr = some "light" :=
  ⟨(c5_applyTheme_spec darkBase "light" rfl (Or.inl rfl)).1,
   (c5_applyTheme_spec darkBase "light" rfl (Or.inl rfl)).2.1,
   (c5_applyTheme_spec darkBase "light" rfl (Or.inl rfl)).2.2.1 rfl⟩

/-! ### Claim C8 -/

/-- Claim C8: when the persistent-storage write throws, `saveTheme`
swallows the error (it returns the state unchanged instead of
propagating), and `applyTheme` still completes its in-memory and document
updates: the current theme and the marker attribute are set exactly as on
a successful write, only the stored value stays as it was. -/
theorem c8_storage_failure (s : St) (t : String) (hw : s.storageOk = false) :
    setItemE t s = .error "storage write failed" ∧
    saveTheme t s = s ∧
    getCurrentTheme (applyTheme t s) = t ∧
    (applyTheme t s).attr = (if t = "light" then some "light" else none) ∧
    (applyTheme t s).storage = s.storage := by
  refine ⟨?_, ?_, ?_, ?_, ?_⟩ <;>
    simp [setItemE, saveTheme, applyTheme_eq, getCurrentTheme, hw]

/-- Witness for C8: a concrete state whose storage writes throw. -/
theorem c8_storage_failure_witness :
    setItemE "light" stNoWrite = .error "storage write failed" ∧
    saveTheme "light" stNoWrite = stNoWrite ∧
    getCurrentTheme (applyTheme "light" stNoWrite) = "light" ∧
    (applyTheme "light" stNoWrite).attr = (if "light" = "light" then some "light" else none) ∧
    (applyTheme "light" stNoWrite).storage = stNoWrite.storage :=
  c8_storage_failure stNoWrite "light" rfl

/-! ### Claim C9 -/

/-- Claim C9: `setTheme` on any input not in `{light, dark}` is a
complete no-op (the whole state — current theme, attribute, storage,
button UI, toasts — is unchanged); on `light` or `dark` it applies the
theme and refreshes the button UI without emitting a notification. -/
theorem c9_setTheme_spec (s : St) (t : String) :
    (¬(t = "light" ∨ t = "dark") → setTheme t s = s) ∧
    (t = "light" ∨ t = "dark" →
      getCurrentTheme (setTheme t s) = t ∧
      uiSynced (setTheme t s) ∧
      (setTheme t s).toasts = s.toasts ∧
      (s.storageOk = true → (setTheme t s).storage = some t)) := by
  constructor
  · intro h
    simp [setTheme, h]
  · intro h
    have hs : setTheme t s = updateThemeButton (applyTheme t s) := by
      simp [setTheme, h]
    rw [hs]
    refine ⟨?_, ?_, ?_, ?_⟩ <;>
      simp [updateThemeButton, applyTheme_eq, getCurrentTheme, uiSynced,
        List.map_map, Function.comp]
    intro hw
    simp [hw]

/-- Witness for C9: invalid input `"purple"` is a no-op on a concrete
state; valid input `"light"` applies, syncs the UI, and emits no toast. -/
theorem c9_setTheme_spec_witness :
    setTheme "purple" darkBase = darkBase ∧
    getCurrentTheme (setTheme "light" darkBase) = "light" ∧
    uiSynced (setTheme "light" darkBase) ∧
    (setTheme "light" darkBase).toasts = darkBase.toasts :=
  ⟨(c9_setTheme_spec darkBase "purple").1 (by decide),
   ((c9_setTheme_spec darkBase "light").2 (Or.inl rfl)).1,
   ((c9_setTheme_spec darkBase "light").2 (Or.inl rfl)).2.1,
   ((c9_setTheme_spec darkBase "light").2 (Or.inl rfl)).2.2.1⟩

/-! ### Claim C3 -/

/-- After applying a valid theme the document reflects it. -/
theorem docReflects_applyTheme (s : St) (t : String)
    (ht : t = "light" ∨ t = "dark") : docReflects (applyTheme t s) := by
  rcases ht with h | h <;> subst h <;> simp [applyTheme_eq, docReflects]

/-- Claim C3: every mutation path preserves the document invariant — after
`applyTheme` (on a valid theme), `toggleTheme`, `setTheme` (on any input)
and the system-theme-change handler, the `data-theme` attribute is present
with value `light` exactly when the current theme is `light` and absent
exactly when it is `dark`. -/
theorem c3_invariant (s : St) (t u : String) (m : Bool)
    (hs : docReflects s) (ht : t = "light" ∨ t = "dark") :
    docReflects (applyTheme t s) ∧ docReflects (toggleTheme s) ∧
    docReflects (setTheme u s) ∧ docReflects (handleChange m s) := by
  refine ⟨docReflects_applyTheme s t ht, ?_, ?_, ?_⟩
  · by_cases hc : s.currentTheme = "light" <;>
    by_cases hb : s.toastAvail <;>
      simp [toggleTheme, hc, hb, updateThemeButton, applyTheme_eq, docReflects]
  · by_cases hu : u = "light" ∨ u = "dark"
    · have : docReflects (applyTheme u s) := docReflects_applyTheme s u hu
      simp only [setTheme, hu, if_pos]
      simpa [docReflects, updateThemeButton] using this
    · simpa [setTheme, hu] using hs
  · by_cases hst : truthy (getStoredTheme s)
    · simpa [handleChange, hst] using hs
    · cases m <;>
        simp [handleChange, hst, updateThemeButton, applyTheme_eq, docReflects]

/-- Witness for C3 at a concrete dark page in the documented invariant. -/
theorem c3_invariant_witness :
    docReflects (applyTheme "light" darkBase) ∧ docReflects (toggleTheme darkBase) ∧
    docReflects (setTheme "purple" darkBase) ∧ docReflects (handleChange true darkBase) :=
  c3_invariant darkBase "light" "purple" true (by decide) (Or.inl rfl)

/-! ### Claim C4 -/

/-- Claim C4 counterexample: the stored value `"purple"` is not a valid
`Preference` (the data model treats invalid stored values as absent), so
the claim requires the system-theme-change to alter the current theme;
but the handler tests JS truthiness of the raw stored string, finds
`"purple"` truthy, and leaves the state — in particular the current theme
`"dark"` — completely unchanged instead of switching to the new system
theme `"light"`. -/
theorem c4_counterexample :
    (stPurple.storage = some "purple" ∧ "purple" ≠ "light" ∧ "purple" ≠ "dark") ∧
    handleChange true stPurple = stPurple ∧
    getCurrentTheme (handleChange true stPurple) = "dark" ∧
    getCurrentTheme (handleChange true stPurple) ≠ "light" := by
  refine ⟨⟨rfl, by decide, by decide⟩, rfl, rfl, by decide⟩

/-- Claim C4 amended: when any truthy (non-empty) value is stored — valid
theme or not — a system-theme-change notification leaves the whole state
unchanged; when the stored value is absent or the empty string, the
current theme becomes the new system theme and the button UI is
re-synced. -/
theorem c4_amended (s : St) (m : Bool) :
    (truthy (getStoredTheme s) = true → handleChange m s = s) ∧
    (truthy (getStoredTheme s) = false →
      getCurrentTheme (handleChange m s) = (if m then "light" else "dark") ∧
      uiSynced (handleChange m s)) := by
  constructor
  · intro h; simp [handleChange, h]
  · intro h
    cases m <;>
      simp [handleChange, h, updateThemeButton, applyTheme_eq, getCurrentTheme,
        uiSynced, List.map_map, Function.comp]

/-- Witness for C4 (amended): with nothing stored, a change to light sets
the theme to light and re-syncs the UI. -/
theorem c4_amended_witness :
    getCurrentTheme (handleChange true darkBase) = (if true then "light" else "dark") ∧
    uiSynced (handleChange true darkBase) :=
  (c4_amended darkBase true).2 rfl

/-! ### Claim C7 -/

/-- Claim C7: initial resolution returns the stored preference when a
valid one is present (stored wins over system); when storage is empty it
returns the system theme — `light` exactly when the color-scheme query
is available and reports light, `dark` when it reports no light
preference or `matchMedia` is unavailable. -/
theorem c7_initial_resolution (s : St) (hr : s.readOk = true) :
    (∀ v, s.storage = some v → v = "light" ∨ v = "dark" →
      resolveInitialTheme s = v) ∧
    (s.storage = none →
      resolveInitialTheme s = getSystemTheme s ∧
      (s.matchMediaAvail = true → s.systemLight = true → resolveInitialTheme s = "light") ∧
      (s.matchMediaAvail = false ∨ s.systemLight = false → resolveInitialTheme s = "dark")) := by
  constructor
  · intro v hv hval
    rcases hval with h | h <;> subst h <;>
      simp [resolveInitialTheme, jsOr, getStoredTheme, hr, hv]
  · intro hv
    refine ⟨?_, ?_, ?_⟩
    · simp [resolveInitialTheme, jsOr, getStoredTheme, hr, hv]
    · intro h1 h2
      simp [resolveInitialTheme, jsOr, getStoredTheme, getSystemTheme, hr, hv, h1, h2]
    · intro h1
      rcases h1 with h | h <;>
        simp [resolveInitialTheme, jsOr, getStoredTheme, getSystemTheme, hr, hv, h]

/-- `darkBase` with `"dark"` stored while the system reports light: the
spec's stored-preference-wins scenario. -/
def stStoredDark : St :=
  { darkBase with storage := some "dark", systemLight := true }

/-- Witness for C7: storage `"dark"`, system light, resolution is dark. -/
theorem c7_initial_resolution_witness :
    resolveInitialTheme stStoredDark = "dark" :=
  (c7_initial_resolution stStoredDark rfl).1 "dark" rfl (Or.inr rfl)

/-! ### Claim C1 -/

/-- Claim C1 counterexample: the stored value `"purple"` is neither
`light` nor `dark`, yet initial resolution does not fall back to the
system theme (`light` here): the JS `||` fallback only fires on falsy
values, so the corrupt string is returned verbatim. -/
theorem c1_counterexample :
    ("purple" ≠ "light" ∧ "purple" ≠ "dark" ∧ stPurple.storage = some "purple") ∧
    getSystemTheme stPurple = "light" ∧
    resolveInitialTheme stPurple = "purple" ∧
    resolveInitialTheme stPurple ≠ getSystemTheme stPurple := by
  refine ⟨⟨by decide, by decide, rfl⟩, rfl, rfl, by decide⟩

/-- Claim C1 amended: initial resolution falls back to the system theme
exactly for falsy stored values (key absent, storage read failure, or the
empty string); any other stored value — valid or corrupt — is returned
verbatim as the initial theme. -/
theorem c1_amended (s : St) :
    (truthy (getStoredTheme s) = false → resolveInitialTheme s = getSystemTheme s) ∧
    (∀ v, getStoredTheme s = some v → v ≠ "" → resolveInitialTheme s = v) := by
  constructor
  · intro h
    cases hg : getStoredTheme s with
    | none => simp [resolveInitialTheme, jsOr, hg]
    | some v =>
      have hv : v = "" := by simpa [truthy, hg] using h
      simp [resolveInitialTheme, jsOr, hg, hv]
  · intro v hv hne
    simp [resolveInitialTheme, jsOr, hv, hne]

/-- Witness for C1 (amended): empty storage falls back; `"purple"` is
returned verbatim. -/
theorem c1_amended_witness :
    resolveInitialTheme darkBase = getSystemTheme darkBase ∧
    resolveInitialTheme stPurple = "purple" :=
  ⟨(c1_amended darkBase).1 rfl,
   (c1_amended stPurple).2 "purple" rfl (by decide)⟩

/-! ### Claim C2 -/

/-- Claim C2 counterexample: on a fresh page with nothing stored, the
constructor's initial load alone — no toggle and no `setTheme` — already
creates the persisted value (via `init → applyTheme → saveTheme`), and
the system-theme-change handler overwrites it as well. -/
theorem c2_counterexample :
    darkBase.storage = none ∧
    (themeManagerConstructor darkBase).storage = some "dark" ∧
    (handleChange true darkBase).storage = some "light" := by
  refine ⟨rfl, rfl, rfl⟩

/-- Claim C2 amended: the persisted value is written by every
`applyTheme` call (when the storage layer is healthy), and `applyTheme`
is reached from all four mutation paths: `toggleTheme`, `setTheme` on
valid input, the constructor's initial load, and the system-theme-change
handler when no truthy value is stored; only with a truthy stored value
does the handler leave storage untouched. -/
theorem c2_amended (s : St) (t : String) (m : Bool) (hw : s.storageOk = true) :
    (applyTheme t s).storage = some t ∧
    (toggleTheme s).storage = some (if s.currentTheme = "light" then "dark" else "light") ∧
    (t = "light" ∨ t = "dark" → (setTheme t s).storage = some t) ∧
    (themeManagerConstructor s).storage = some (resolveInitialTheme s) ∧
    (truthy (getStoredTheme s) = false →
      (handleChange m s).storage = some (if m then "light" else "dark")) ∧
    (truthy (getStoredTheme s) = true → (handleChange m s).storage = s.storage) := by
  refine ⟨?_, ?_, ?_, ?_, ?_, ?_⟩
  · simp [applyTheme_eq, hw]
  · by_cases hc : s.currentTheme = "light" <;>
    by_cases hb : s.toastAvail <;>
      simp [toggleTheme, hc, hb, updateThemeButton, applyTheme_eq, hw]
  · intro h
    simp [setTheme, h, updateThemeButton, applyTheme_eq, hw]
  · simp [themeManagerConstructor, init, updateThemeButton, applyTheme_eq, hw,
      resolveInitialTheme, getStoredTheme, getSystemTheme, jsOr]
  · intro h
    cases m <;> simp [handleChange, h, updateThemeButton, applyTheme_eq, hw]
  · intro h
    simp [handleChange, h]

/-- Witness for C2 (amended) on the fresh dark page. -/
theorem c2_amended_witness :
    (applyTheme "light" darkBase).storage = some "light" ∧
    (themeManagerConstructor darkBase).storage = some (resolveInitialTheme darkBase) ∧
    (handleChange true darkBase).storage = some (if true then "light" else "dark") :=
  ⟨(c2_amended darkBase "light" true rfl).1,
   (c2_amended darkBase "light" true rfl).2.2.2.1,
   (c2_amended darkBase "light" true rfl).2.2.2.2.1 rfl⟩

/-! ### Claim C6 -/

/-- Claim C6: `toggleTheme` is its own inverse — from any state whose
current theme is `light` or `dark` and whose toggle-button UI reflects
that theme (as every state the manager leaves at rest does), two
consecutive toggles restore the original current theme and the original
button icons, texts, titles and aria-labels. -/
theorem c6_toggle_involutive (s : St)
    (ht : s.currentTheme = "light" ∨ s.currentTheme = "dark")
    (hu : uiSynced s) :
    getCurrentTheme (toggleTheme (toggleTheme s)) = getCurrentTheme s ∧
    (toggleTheme (toggleTheme s)).icons = s.icons ∧
    (toggleTheme (toggleTheme s)).texts = s.texts ∧
    (toggleTheme (toggleTheme s)).titles = s.titles ∧
    (toggleTheme (toggleTheme s)).ariaLabels = s.ariaLabels := by
  obtain ⟨h1, h2, h3, h4⟩ := hu
  simp only [List.map_const'] at h1 h2 h3 h4
  rcases ht with h | h <;> rw [h] at h1 h2 h3 h4 <;>
  by_cases hb : s.toastAvail <;>
    simp [toggleTheme, h, hb, updateThemeButton, applyTheme_eq, getCurrentTheme,
      List.map_map, Function.comp] <;>
    exact ⟨h1.symm, h2.symm, h3.symm, h4.symm⟩

set_option maxRecDepth 10000 in
/-- Witness for C6: double toggle on the concrete synced dark page. -/
theorem c6_toggle_involutive_witness :
    getCurrentTheme (toggleTheme (toggleTheme darkBase)) = getCurrentTheme darkBase ∧
    (toggleTheme (toggleTheme darkBase)).icons = darkBase.icons ∧
    (toggleTheme (toggleTheme darkBase)).texts = darkBase.texts ∧
    (toggleTheme (toggleTheme darkBase)).titles = darkBase.titles ∧
    (toggleTheme (toggleTheme darkBase)).ariaLabels = darkBase.ariaLabels :=
  c6_toggle_involutive darkBase (Or.inr rfl) (by decide)

/-! ### Claim C10 -/

/-- Claim C10: following the system theme is one-shot — with a healthy
storage layer and nothing truthy stored, one firing of the
system-theme-change handler persists the new system theme, and from then
on every further notification finds a truthy stored value and leaves the
state (in particular the current theme) completely unchanged. -/
theorem c10_one_shot (s : St) (m : Bool)
    (hw : s.storageOk = true) (hr : s.readOk = true)
    (h : truthy (getStoredTheme s) = false) :
    (handleChange m s).storage = some (if m then "light" else "dark") ∧
    (∀ m2, handleChange m2 (handleChange m s) = handleChange m s) := by
  have hcall : handleChange m s =
      updateThemeButton (applyTheme (if m then "light" else "dark") s) := by
    simp [handleChange, h]
  have hst : (handleChange m s).storage = some (if m then "light" else "dark") := by
    rw [hcall]; cases m <;> simp [updateThemeButton, applyTheme_eq, hw]
  refine ⟨hst, ?_⟩
  intro m2
  have htr : truthy (getStoredTheme (handleChange m s)) = true := by
    rw [hcall]
    cases m <;>
      simp [updateThemeButton, applyTheme_eq, getStoredTheme, truthy, hw, hr]
  obtain ⟨s2, hs2⟩ : ∃ s2, handleChange m s = s2 := ⟨_, rfl⟩
  rw [hs2] at htr ⊢
  simp [handleChange, htr]

/-- Witness for C10: one system change to light on the fresh dark page
persists `light`; a second change back to dark is then ignored. -/
theorem c10_one_shot_witness :
    (handleChange true darkBase).storage = some (if true then "light" else "dark") ∧
    handleChange false (handleChange true darkBase) = handleChange true darkBase :=
  ⟨(c10_one_shot darkBase true rfl rfl rfl).1,
   (c10_one_shot darkBase true rfl rfl rfl).2 false⟩
